import Mathlib

/-!
# go-API-server: the login and item handlers of `main.go`

A shallow embedding of the five routed HTTP handlers of `main.go`
(`loginHandler`, `createItemHandler`, `getItemHandler`, `updateItemHandler`,
`deleteItemHandler`) as pure functions

  request → store client → response × store client.

The handlers are translated statement by statement.  What `main.go` imports is
not part of the repository and appears as follows.

* `encoding/json` and `golang.org/x/crypto/bcrypt` are parameters, collected in
  `Lib`: the handlers are verified for every decoder, encoder and hasher, and a
  theorem that needs a property of one of them says so in a hypothesis.
* `github.com/go-redis/redis` together with the server behind it is the state
  machine `Client`: a table of string values with optional deadlines, a clock,
  a record of the commands issued, and a schedule telling which commands fail.
* `net/http`'s `ResponseWriter` is the record `ResponseWriter` (status line and
  body); `log.Println` calls write to the process log only and are left out.
-/

namespace GoApiServer

/-! ## Constants of the imported packages -/

/-- The constant `http.StatusOK`. -/
abbrev StatusOK : Nat := 200
/-- The constant `http.StatusCreated`. -/
abbrev StatusCreated : Nat := 201
/-- The constant `http.StatusNoContent`. -/
abbrev StatusNoContent : Nat := 204
/-- The constant `http.StatusBadRequest`. -/
abbrev StatusBadRequest : Nat := 400
/-- The constant `http.StatusUnauthorized`. -/
abbrev StatusUnauthorized : Nat := 401
/-- The constant `http.StatusNotFound`. -/
abbrev StatusNotFound : Nat := 404
/-- The constant `http.StatusInternalServerError`. -/
abbrev StatusInternalServerError : Nat := 500

/-- The constant `time.Second`: a `time.Duration` counts nanoseconds. -/
abbrev Second : Nat := 1000000000
/-- The constant `time.Minute`. -/
abbrev Minute : Nat := 60 * Second

/-- The constant `bcrypt.DefaultCost`. -/
abbrev DefaultCost : Nat := 10

/-! ## Data model (`main.go`, lines 24-34) -/

/-- The type `LoginRequest`: login identifier and password. -/
structure LoginRequest where
  LoginID : String
  Password : String
deriving DecidableEq, Repr

/-- The type `Item`: the stored entity. -/
structure Item where
  ID : String
  Value : String
deriving DecidableEq, Repr

/-! ## The HTTP side -/

/-- The part of `*http.Request` the handlers read: the raw body and the route
variables `mux.Vars(r)`. -/
structure Request where
  body : String
  vars : List (String × String)

/-- The expression `mux.Vars(r)[name]`: indexing a Go map, the empty string when the key is
missing. -/
def Request.var (r : Request) (name : String) : String :=
  (r.vars.lookup name).getD ""

/-- State of an `http.ResponseWriter`: the status code once the header has been
written, and the body written so far. -/
structure ResponseWriter where
  code : Option Nat
  body : String
deriving DecidableEq, Repr

/-- A writer nothing has been written to. -/
def ResponseWriter.fresh : ResponseWriter := ⟨none, ""⟩

/-- The call `w.WriteHeader(code)`: only the first call sets the status. -/
def ResponseWriter.WriteHeader (w : ResponseWriter) (code : Nat) : ResponseWriter :=
  match w.code with
  | none => { w with code := some code }
  | some _ => w

/-- The call `w.Write(b)`: writes the header with status 200 when none was written. -/
def ResponseWriter.Write (w : ResponseWriter) (b : String) : ResponseWriter :=
  let w1 := w.WriteHeader StatusOK
  { w1 with body := w1.body ++ b }

/-- The call `http.Error(w, msg, code)`: status `code`, then the message and a newline. -/
def httpError (w : ResponseWriter) (msg : String) (code : Nat) : ResponseWriter :=
  (w.WriteHeader code).Write (msg ++ "\n")

/-- The status the client receives: 200 when the handler never wrote a header. -/
def ResponseWriter.statusCode (w : ResponseWriter) : Nat :=
  w.code.getD StatusOK

/-! ## The imported libraries as parameters -/

/-- What the handlers call in `encoding/json` and `bcrypt`.
`decodeLoginRequest` and `decodeItem` are `json.NewDecoder(r.Body).Decode` into
the two target types, `encodeItem` is the text `json.NewEncoder(w).Encode`
writes, `GenerateFromPassword` takes the random bytes it draws for the salt as
its first argument, `CompareHashAndPassword` takes the hash first. -/
structure Lib where
  decodeLoginRequest : String → Except String LoginRequest
  decodeItem : String → Except String Item
  encodeItem : Item → String
  GenerateFromPassword : String → String → Nat → Except String String
  CompareHashAndPassword : String → String → Except String Unit

/-! ## Contract of the hasher

The one property of the hasher passed in `Lib` that a statement below assumes. -/

/-- The hasher accepts the password it hashed. -/
def Lib.VerifiesOwn (L : Lib) : Prop :=
  ∀ rnd p cost h, L.GenerateFromPassword rnd p cost = Except.ok h →
    L.CompareHashAndPassword h p = Except.ok ()

/-! ## The key-value store -/

/-- A stored value and the instant at which it expires (`none`: never). -/
structure Entry where
  value : String
  expireAt : Option Nat
deriving DecidableEq, Repr

/-- The commands the handlers send. -/
inductive Cmd where
  | get (key : String)
  | set (key value : String) (expiration : Nat)
  | del (key : String)
deriving DecidableEq, Repr

/-- Errors of a store command: `redis.Nil` (key not found) or any other error. -/
inductive RedisError where
  | Nil
  | other (msg : String)
deriving DecidableEq, Repr

/-- Modelled from the spec: the key-value store behind `redisClient` (package
go-redis and the server it talks to are not part of the repository).  The spec
describes it as a service "providing get/set/delete with optional per-key
expiration", a TTL being the "duration after which a stored key is
automatically removed by the store", an expiration of 0 meaning none, and
"store deletion of a missing key is not an error"; any command may instead fail
with a store error.

* `data` is the table, `now` the store's clock in nanoseconds;
* `log` lists the commands issued so far, oldest first;
* `outage n` is `some msg` when the command number `n` (counting from 0 over
  the life of the client) fails with the error `msg`; a failed command leaves
  the table as it was. -/
structure Client where
  data : String → Option Entry
  now : Nat
  outage : Nat → Option String
  log : List Cmd

/-- An entry is readable strictly before its deadline. -/
def Entry.live (e : Entry) (now : Nat) : Bool :=
  match e.expireAt with
  | none => true
  | some t => decide (now < t)

/-- The contents of the store as a reader sees them at the current instant:
expired entries are gone. -/
def Client.lookup (c : Client) (key : String) : Option Entry :=
  (c.data key).filter (fun e => e.live c.now)

/-- The error, if any, with which the next command fails. -/
def Client.fault (c : Client) : Option String :=
  c.outage c.log.length

/-- Record a command as issued. -/
def Client.issue (c : Client) (cmd : Cmd) : Client :=
  { c with log := c.log ++ [cmd] }

/-- Time passes between two requests. -/
def Client.advance (c : Client) (d : Nat) : Client :=
  { c with now := c.now + d }

/-- The call `redisClient.Get(key).Result()`. -/
def Client.Get (c : Client) (key : String) : Except RedisError String × Client :=
  let c1 := c.issue (Cmd.get key)
  match c.fault with
  | some msg => (Except.error (RedisError.other msg), c1)
  | none =>
    match c.lookup key with
    | none => (Except.error RedisError.Nil, c1)
    | some e => (Except.ok e.value, c1)

/-- The call `redisClient.Set(key, value, expiration).Err()`: an expiration of 0 stores
the value without a deadline. -/
def Client.Set (c : Client) (key value : String) (expiration : Nat) :
    Except RedisError Unit × Client :=
  let c1 := c.issue (Cmd.set key value expiration)
  match c.fault with
  | some msg => (Except.error (RedisError.other msg), c1)
  | none =>
    let e : Entry := ⟨value, if expiration = 0 then none else some (c.now + expiration)⟩
    (Except.ok (), { c1 with data := fun k => if k = key then some e else c.data k })

/-- The call `redisClient.Del(key).Err()`: deleting a key that is not there succeeds. -/
def Client.Del (c : Client) (key : String) : Except RedisError Unit × Client :=
  let c1 := c.issue (Cmd.del key)
  match c.fault with
  | some msg => (Except.error (RedisError.other msg), c1)
  | none => (Except.ok (), { c1 with data := fun k => if k = key then none else c.data k })

/-! ## The handlers (`main.go`, lines 106-231) -/

/-- Handler `loginHandler` (lines 107-152).  `rnd` is the randomness the request draws
for the salt. -/
def loginHandler (L : Lib) (rnd : String) (r : Request) (db : Client) :
    ResponseWriter × Client :=
  let w := ResponseWriter.fresh
  match L.decodeLoginRequest r.body with
  | Except.error _ => (httpError w "invalid request body" StatusBadRequest, db)
  | Except.ok loginRequest =>
    match db.Get loginRequest.LoginID with
    | (Except.error RedisError.Nil, db1) =>
      match L.GenerateFromPassword rnd loginRequest.Password DefaultCost with
      | Except.error _ => (httpError w "error hashing password" StatusInternalServerError, db1)
      | Except.ok hashedPassword =>
        match db1.Set loginRequest.LoginID hashedPassword (10 * Minute) with
        | (Except.error _, db2) =>
          (httpError w "error storing new user" StatusInternalServerError, db2)
        | (Except.ok _, db2) =>
          ((w.WriteHeader StatusCreated).Write "User created successfully. Please login.", db2)
    | (Except.error (RedisError.other _), db1) =>
      (httpError w "error retrieving user" StatusInternalServerError, db1)
    | (Except.ok storedPassword, db1) =>
      match L.CompareHashAndPassword storedPassword loginRequest.Password with
      | Except.error _ => (httpError w "login error" StatusUnauthorized, db1)
      | Except.ok _ => (w.Write "Login successful", db1)

/-- Handler `createItemHandler` (lines 155-173). -/
def createItemHandler (L : Lib) (r : Request) (db : Client) : ResponseWriter × Client :=
  let w := ResponseWriter.fresh
  match L.decodeItem r.body with
  | Except.error _ => (httpError w "error creating item" StatusBadRequest, db)
  | Except.ok item =>
    match db.Set item.ID item.Value 0 with
    | (Except.error _, db1) => (httpError w "error storing item" StatusInternalServerError, db1)
    | (Except.ok _, db1) => ((w.WriteHeader StatusCreated).Write (L.encodeItem item), db1)

/-- Handler `getItemHandler` (lines 176-192). -/
def getItemHandler (L : Lib) (r : Request) (db : Client) : ResponseWriter × Client :=
  let w := ResponseWriter.fresh
  let id := r.var "id"
  match db.Get id with
  | (Except.error RedisError.Nil, db1) => (httpError w "item not found" StatusNotFound, db1)
  | (Except.error (RedisError.other _), db1) =>
    (httpError w "error retrieving item" StatusInternalServerError, db1)
  | (Except.ok value, db1) => (w.Write (L.encodeItem ⟨id, value⟩), db1)

/-- Handler `updateItemHandler` (lines 195-216): the key is the route variable, the
value and the echoed item come from the body. -/
def updateItemHandler (L : Lib) (r : Request) (db : Client) : ResponseWriter × Client :=
  let w := ResponseWriter.fresh
  let id := r.var "id"
  match L.decodeItem r.body with
  | Except.error _ =>
    (httpError w "failed to decode the request body for item update" StatusBadRequest, db)
  | Except.ok item =>
    match db.Set id item.Value 0 with
    | (Except.error _, db1) => (httpError w "error updating item" StatusInternalServerError, db1)
    | (Except.ok _, db1) => ((w.WriteHeader StatusOK).Write (L.encodeItem item), db1)

/-- Handler `deleteItemHandler` (lines 219-231): no body is read. -/
def deleteItemHandler (r : Request) (db : Client) : ResponseWriter × Client :=
  let w := ResponseWriter.fresh
  let id := r.var "id"
  match db.Del id with
  | (Except.error _, db1) => (httpError w "error deleting item" StatusInternalServerError, db1)
  | (Except.ok _, db1) => (w.WriteHeader StatusNoContent, db1)

/-! ## A sample instantiation

Stand-ins for the imported libraries and a few small stores, used to evaluate
the handlers at concrete inputs.  They are not the libraries themselves: every
general statement below is proved for an arbitrary `Lib`. -/

/-- Sample wire format: two fields separated by the first comma; a body without
a comma does not decode. -/
def sampleFields (body : String) : Except String (String × String) :=
  match body.toList.span (fun ch => ch != ',') with
  | (a, _ :: b) => Except.ok (String.mk a, String.mk b)
  | (_, []) => Except.error "unexpected end of input"

/-- Sample hasher: like current `bcrypt.GenerateFromPassword` it rejects a
password of more than 72 bytes; the hash is a fixed header followed by the
password, which makes its verification exact (and the hash unsalted). -/
def sampleGenerate (_rnd password : String) (_cost : Nat) : Except String String :=
  if 72 < password.utf8ByteSize then Except.error "bcrypt: password length exceeds 72 bytes"
  else Except.ok ("$2a$10$" ++ password)

/-- Sample verification for `sampleGenerate`. -/
def sampleCompare (hashedPassword password : String) : Except String Unit :=
  if hashedPassword = "$2a$10$" ++ password then Except.ok ()
  else Except.error "hashedPassword is not the hash of the given password"

/-- The sample libraries. -/
def sampleLib : Lib where
  decodeLoginRequest body := (sampleFields body).map (fun f => ⟨f.1, f.2⟩)
  decodeItem body := (sampleFields body).map (fun f => ⟨f.1, f.2⟩)
  encodeItem item := item.ID ++ "," ++ item.Value ++ "\n"
  GenerateFromPassword := sampleGenerate
  CompareHashAndPassword := sampleCompare

/-- The part of a password a bcrypt hash depends on: its first 72 characters. -/
def bcryptKey (password : String) : String :=
  String.mk (password.toList.take 72)

/-- Sample hasher keyed like bcrypt: generation rejects a password of more than
72 bytes, and the hash is a fixed header followed by the key of the password. -/
def truncGenerate (_rnd password : String) (_cost : Nat) : Except String String :=
  if 72 < password.utf8ByteSize then Except.error "bcrypt: password length exceeds 72 bytes"
  else Except.ok ("$2a$10$" ++ bcryptKey password)

/-- Sample verification for `truncGenerate`: the hash is recomputed from the
key of the candidate password, whatever the length of the candidate. -/
def truncCompare (hashedPassword password : String) : Except String Unit :=
  if hashedPassword = "$2a$10$" ++ bcryptKey password then Except.ok ()
  else Except.error "hashedPassword is not the hash of the given password"

/-- The sample libraries with the hasher keyed like bcrypt. -/
def truncLib : Lib where
  decodeLoginRequest := sampleLib.decodeLoginRequest
  decodeItem := sampleLib.decodeItem
  encodeItem := sampleLib.encodeItem
  GenerateFromPassword := truncGenerate
  CompareHashAndPassword := truncCompare

/-- A password of 72 bytes, the first 72 bytes of `longPassword`. -/
def password72 : String := String.mk (List.replicate 72 'a')

/-- An empty store at instant 0 on which no command fails. -/
def emptyClient : Client := ⟨fun _ => none, 0, fun _ => none, []⟩

/-- A store holding the item `x ↦ v` (no deadline) on which no command fails. -/
def oneItemClient : Client :=
  ⟨fun k => if k = "x" then some ⟨"v", none⟩ else none, 0, fun _ => none, []⟩

/-- A password of 73 bytes. -/
def longPassword : String := String.mk (List.replicate 73 'a')

/-- A store that is empty and whose commands all fail. -/
def downClient : Client := ⟨fun _ => none, 0, fun _ => some "connection refused", []⟩

/-- A store whose second command fails. -/
def flakyClient : Client :=
  ⟨fun _ => none, 0, fun n => if n = 1 then some "connection reset" else none, []⟩

/-! ## Facts about the store commands -/

theorem Get_snd (c : Client) (key : String) : (c.Get key).2 = c.issue (Cmd.get key) := by
  unfold Client.Get
  cases c.fault <;> simp
  cases c.lookup key <;> simp

theorem Get_nil_iff (c : Client) (key : String) :
    (c.Get key).1 = Except.error RedisError.Nil ↔ c.fault = none ∧ c.lookup key = none := by
  unfold Client.Get
  cases c.fault <;> simp
  cases c.lookup key <;> simp

theorem Get_ok_iff (c : Client) (key v : String) :
    (c.Get key).1 = Except.ok v ↔
      c.fault = none ∧ ∃ e, c.lookup key = some e ∧ e.value = v := by
  unfold Client.Get
  cases c.fault <;> simp
  cases c.lookup key <;> simp

theorem Get_eq (c : Client) (key : String) : c.Get key = ((c.Get key).1, c.issue (Cmd.get key)) := by
  rw [← Get_snd]

theorem Set_log (c : Client) (key value : String) (ttl : Nat) :
    (c.Set key value ttl).2.log = c.log ++ [Cmd.set key value ttl] := by
  unfold Client.Set
  cases c.fault <;> simp [Client.issue]

theorem Set_served (c : Client) (key value : String) (ttl : Nat) (h : c.fault = none) :
    c.Set key value ttl =
      (Except.ok (),
        { c.issue (Cmd.set key value ttl) with
          data := fun k =>
            if k = key then some ⟨value, if ttl = 0 then none else some (c.now + ttl)⟩
            else c.data k }) := by
  unfold Client.Set
  simp [h]

theorem Set_failed (c : Client) (key value msg : String) (ttl : Nat) (h : c.fault = some msg) :
    c.Set key value ttl =
      (Except.error (RedisError.other msg), c.issue (Cmd.set key value ttl)) := by
  unfold Client.Set
  simp [h]

theorem Set_error_iff (c : Client) (key value : String) (ttl : Nat) (e : RedisError) :
    (c.Set key value ttl).1 = Except.error e ↔ ∃ msg, c.fault = some msg ∧ e = RedisError.other msg := by
  unfold Client.Set
  cases c.fault <;> simp
  exact eq_comm

/-! ## The paths of `loginHandler` -/

theorem login_malformed (L : Lib) (rnd : String) (r : Request) (db : Client) (e : String)
    (hbody : L.decodeLoginRequest r.body = Except.error e) :
    loginHandler L rnd r db =
      (httpError ResponseWriter.fresh "invalid request body" StatusBadRequest, db) := by
  simp [loginHandler, hbody]

theorem login_get_failed (L : Lib) (rnd : String) (r : Request) (db : Client) (u p msg : String)
    (hbody : L.decodeLoginRequest r.body = Except.ok ⟨u, p⟩)
    (hget : (db.Get u).1 = Except.error (RedisError.other msg)) :
    loginHandler L rnd r db =
      (httpError ResponseWriter.fresh "error retrieving user" StatusInternalServerError,
        db.issue (Cmd.get u)) := by
  have hg := Get_eq db u
  rw [hget] at hg
  simp [loginHandler, hbody, hg]

theorem login_hash_failed (L : Lib) (rnd : String) (r : Request) (db : Client) (u p e : String)
    (hbody : L.decodeLoginRequest r.body = Except.ok ⟨u, p⟩)
    (hget : (db.Get u).1 = Except.error RedisError.Nil)
    (hhash : L.GenerateFromPassword rnd p DefaultCost = Except.error e) :
    loginHandler L rnd r db =
      (httpError ResponseWriter.fresh "error hashing password" StatusInternalServerError,
        db.issue (Cmd.get u)) := by
  have hg := Get_eq db u
  rw [hget] at hg
  simp [loginHandler, hbody, hg, hhash]

theorem login_set_failed (L : Lib) (rnd : String) (r : Request) (db : Client) (u p h : String)
    (e : RedisError)
    (hbody : L.decodeLoginRequest r.body = Except.ok ⟨u, p⟩)
    (hget : (db.Get u).1 = Except.error RedisError.Nil)
    (hhash : L.GenerateFromPassword rnd p DefaultCost = Except.ok h)
    (hset : ((db.issue (Cmd.get u)).Set u h (10 * Minute)).1 = Except.error e) :
    loginHandler L rnd r db =
      (httpError ResponseWriter.fresh "error storing new user" StatusInternalServerError,
        ((db.issue (Cmd.get u)).Set u h (10 * Minute)).2) := by
  have hg := Get_eq db u
  rw [hget] at hg
  obtain ⟨msg, hf, rfl⟩ := (Set_error_iff _ _ _ _ _).1 hset
  simp [loginHandler, hbody, hg, hhash, Set_failed _ _ _ _ _ hf]

theorem login_created (L : Lib) (rnd : String) (r : Request) (db : Client) (u p h : String)
    (hbody : L.decodeLoginRequest r.body = Except.ok ⟨u, p⟩)
    (hget : (db.Get u).1 = Except.error RedisError.Nil)
    (hhash : L.GenerateFromPassword rnd p DefaultCost = Except.ok h)
    (hset : (db.issue (Cmd.get u)).fault = none) :
    loginHandler L rnd r db =
      ((ResponseWriter.fresh.WriteHeader StatusCreated).Write
          "User created successfully. Please login.",
        ((db.issue (Cmd.get u)).Set u h (10 * Minute)).2) := by
  have hg := Get_eq db u
  rw [hget] at hg
  simp [loginHandler, hbody, hg, hhash, Set_served _ _ _ _ hset]

theorem login_found (L : Lib) (rnd : String) (r : Request) (db : Client) (u p stored : String)
    (hbody : L.decodeLoginRequest r.body = Except.ok ⟨u, p⟩)
    (hget : (db.Get u).1 = Except.ok stored) :
    loginHandler L rnd r db =
      (match L.CompareHashAndPassword stored p with
        | Except.error _ => httpError ResponseWriter.fresh "login error" StatusUnauthorized
        | Except.ok _ => ResponseWriter.fresh.Write "Login successful",
        db.issue (Cmd.get u)) := by
  have hg := Get_eq db u
  rw [hget] at hg
  simp only [loginHandler, hbody, hg]
  cases L.CompareHashAndPassword stored p <;> rfl

/-! ## Facts about the response writer -/

theorem httpError_status (msg : String) (code : Nat) :
    (httpError ResponseWriter.fresh msg code).statusCode = code := rfl

theorem httpError_body (msg : String) (code : Nat) :
    (httpError ResponseWriter.fresh msg code).body = msg ++ "\n" := by
  show "" ++ (msg ++ "\n") = msg ++ "\n"
  exact String.empty_append _

theorem header_write_body (code : Nat) (b : String) :
    ((ResponseWriter.fresh.WriteHeader code).Write b).body = b := by
  show "" ++ b = b
  exact String.empty_append _

theorem write_status (b : String) : (ResponseWriter.fresh.Write b).statusCode = StatusOK := rfl

theorem write_body (b : String) : (ResponseWriter.fresh.Write b).body = b := by
  show "" ++ b = b
  exact String.empty_append _

/-- A first login answered 201 went through the not-found branch: the lookup
returned not-found, hashing produced a hash and the store accepted the write. -/
theorem login_created_inv (L : Lib) (rnd : String) (r : Request) (db : Client) (u p : String)
    (hbody : L.decodeLoginRequest r.body = Except.ok ⟨u, p⟩)
    (hst : (loginHandler L rnd r db).1.statusCode = StatusCreated) :
    (db.Get u).1 = Except.error RedisError.Nil ∧
      ∃ h, L.GenerateFromPassword rnd p DefaultCost = Except.ok h ∧
        (db.issue (Cmd.get u)).fault = none := by
  rcases hG : (db.Get u).1 with e | stored
  · cases e with
    | Nil =>
      refine ⟨rfl, ?_⟩
      rcases hH : L.GenerateFromPassword rnd p DefaultCost with e | h
      · rw [login_hash_failed L rnd r db u p e hbody hG hH, httpError_status] at hst
        exact absurd hst (by decide)
      · refine ⟨h, rfl, ?_⟩
        rcases hF : (db.issue (Cmd.get u)).fault with _ | msg
        · rfl
        · have hs : ((db.issue (Cmd.get u)).Set u h (10 * Minute)).1
              = Except.error (RedisError.other msg) := by
            rw [Set_failed _ _ _ _ _ hF]
          rw [login_set_failed L rnd r db u p h _ hbody hG hH hs, httpError_status] at hst
          exact absurd hst (by decide)
    | other msg =>
      rw [login_get_failed L rnd r db u p msg hbody hG, httpError_status] at hst
      exact absurd hst (by decide)
  · rw [login_found L rnd r db u p stored hbody hG] at hst
    cases hC : L.CompareHashAndPassword stored p <;> rw [hC] at hst
    · rw [httpError_status] at hst
      exact absurd hst (by decide)
    · rw [write_status] at hst
      exact absurd hst (by decide)

/-- The contents of the store right after a served `Set`. -/
theorem Set_lookup (c : Client) (key value : String) (ttl d : Nat) (h : c.fault = none)
    (k : String) :
    ((c.Set key value ttl).2.advance d).lookup k =
      if k = key then
        (some (⟨value, if ttl = 0 then none else some (c.now + ttl)⟩ : Entry)).filter
          (fun e => e.live (c.now + d))
      else (c.advance d).lookup k := by
  rw [Set_served _ _ _ _ h]
  unfold Client.lookup Client.advance Client.issue
  by_cases hk : k = key <;> simp [hk]

theorem advance_zero (c : Client) : c.advance 0 = c := rfl

/-- After a first login answered 201 the store holds, for the next 10 minutes
and no longer, the hash the hasher produced. -/
theorem login_created_lookup (L : Lib) (rnd : String) (r : Request) (db : Client) (u p : String)
    (hbody : L.decodeLoginRequest r.body = Except.ok ⟨u, p⟩)
    (hst : (loginHandler L rnd r db).1.statusCode = StatusCreated) :
    ∃ h, L.GenerateFromPassword rnd p DefaultCost = Except.ok h ∧
      (loginHandler L rnd r db).2.now = db.now ∧
      ∀ d, ((loginHandler L rnd r db).2.advance d).lookup u =
        if d < 10 * Minute then some ⟨h, some (db.now + 10 * Minute)⟩ else none := by
  obtain ⟨hG, h, hH, hF⟩ := login_created_inv L rnd r db u p hbody hst
  refine ⟨h, hH, ?_, ?_⟩
  · rw [login_created L rnd r db u p h hbody hG hH hF, Set_served _ _ _ _ hF]
    rfl
  · intro d
    rw [login_created L rnd r db u p h hbody hG hH hF, Set_lookup _ _ _ _ _ hF]
    by_cases hd : d < 10 * Minute
    · simp [Client.issue, Entry.live, Option.filter, hd]
    · simp [Client.issue, Entry.live, Option.filter, hd]

theorem lookup_advance_issue_advance (c : Client) (cmd : Cmd) (a b : Nat) (k : String) :
    (((c.advance a).issue cmd).advance b).lookup k = (c.advance (a + b)).lookup k := by
  simp [Client.lookup, Client.advance, Client.issue, Nat.add_assoc]

theorem sampleLib_verifiesOwn : sampleLib.VerifiesOwn := by
  intro rnd p cost h hgen
  simp only [sampleLib, sampleGenerate] at hgen
  split at hgen
  · cases hgen
  · cases hgen
    simp [sampleLib, sampleCompare]

theorem truncLib_verifiesOwn : truncLib.VerifiesOwn := by
  intro rnd p cost h hgen
  simp only [truncLib, truncGenerate] at hgen
  split at hgen
  · cases hgen
  · cases hgen
    simp [truncLib, truncCompare]

/-! ## C1: first login of an unknown identifier -/

/-- C1, counterexample: the identifier `u1` is absent from the empty store and
the body decodes, yet the first login with a password the hasher rejects (here
one of 73 bytes) is answered 500, not 201, and nothing is stored. -/
theorem loginHandler_unhashable_password_not_created :
    sampleLib.decodeLoginRequest ("u1," ++ longPassword) = Except.ok ⟨"u1", longPassword⟩ ∧
    (emptyClient.Get "u1").1 = Except.error RedisError.Nil ∧
    (loginHandler sampleLib "salt" ⟨"u1," ++ longPassword, []⟩ emptyClient).1.statusCode
      = StatusInternalServerError ∧
    (loginHandler sampleLib "salt" ⟨"u1," ++ longPassword, []⟩ emptyClient).1.statusCode
      ≠ StatusCreated ∧
    (loginHandler sampleLib "salt" ⟨"u1," ++ longPassword, []⟩ emptyClient).2.lookup "u1"
      = none := by
  refine ⟨rfl, rfl, ?_, ?_, rfl⟩ <;> decide

/-- C1, amended: for every store state, every identifier `u` whose lookup
returns not-found and every password `p`, on a body decoding to
`(loginID u, password p)`: when hashing `p` yields a hash `h` and the store
serves the write, `loginHandler` responds 201 and the store afterwards holds
under `u` the hash `h` with a deadline exactly 10 minutes after the current
instant, every other key being unchanged; when hashing `p` fails the response
is 500 and the contents of the store are unchanged. -/
theorem loginHandler_registers_new_identifier (L : Lib) (rnd : String) (r : Request)
    (db : Client) (u p : String)
    (hbody : L.decodeLoginRequest r.body = Except.ok ⟨u, p⟩)
    (habsent : (db.Get u).1 = Except.error RedisError.Nil) :
    (∀ h, L.GenerateFromPassword rnd p DefaultCost = Except.ok h →
        db.outage (db.log.length + 1) = none →
        (loginHandler L rnd r db).1.statusCode = StatusCreated ∧
        (loginHandler L rnd r db).2.lookup u = some ⟨h, some (db.now + 10 * Minute)⟩ ∧
        ∀ k, k ≠ u → (loginHandler L rnd r db).2.lookup k = db.lookup k) ∧
    (∀ e, L.GenerateFromPassword rnd p DefaultCost = Except.error e →
        (loginHandler L rnd r db).1.statusCode = StatusInternalServerError ∧
        ∀ k, (loginHandler L rnd r db).2.lookup k = db.lookup k) := by
  constructor
  · intro h hhash hserved
    have hf : (db.issue (Cmd.get u)).fault = none := by
      simpa [Client.fault, Client.issue] using hserved
    rw [login_created L rnd r db u p h hbody habsent hhash hf]
    refine ⟨rfl, ?_, ?_⟩
    · have := Set_lookup (db.issue (Cmd.get u)) u h (10 * Minute) 0 hf u
      simp only [advance_zero] at this
      rw [this]
      simp [Client.issue, Entry.live, Option.filter]
    · intro k hk
      have := Set_lookup (db.issue (Cmd.get u)) u h (10 * Minute) 0 hf k
      simp only [advance_zero] at this
      rw [this, if_neg hk]
      rfl
  · intro e hhash
    rw [login_hash_failed L rnd r db u p e hbody habsent hhash]
    exact ⟨rfl, fun k => rfl⟩

/-- C1, instance: the first login of `u1` on the empty store, with the password
`secret` (created) and with a password the hasher rejects (500). -/
theorem loginHandler_registers_new_identifier_witness :
    ((loginHandler sampleLib "salt" ⟨"u1,secret", []⟩ emptyClient).1.statusCode = StatusCreated ∧
      (loginHandler sampleLib "salt" ⟨"u1,secret", []⟩ emptyClient).2.lookup "u1"
        = some ⟨"$2a$10$secret", some (0 + 10 * Minute)⟩ ∧
      ∀ k, k ≠ "u1" →
        (loginHandler sampleLib "salt" ⟨"u1,secret", []⟩ emptyClient).2.lookup k
          = emptyClient.lookup k) ∧
    ((loginHandler sampleLib "salt" ⟨"u1," ++ longPassword, []⟩ emptyClient).1.statusCode
        = StatusInternalServerError ∧
      ∀ k, (loginHandler sampleLib "salt" ⟨"u1," ++ longPassword, []⟩ emptyClient).2.lookup k
        = emptyClient.lookup k) :=
  ⟨(loginHandler_registers_new_identifier sampleLib "salt" ⟨"u1,secret", []⟩ emptyClient
      "u1" "secret" rfl rfl).1 "$2a$10$secret" rfl rfl,
    (loginHandler_registers_new_identifier sampleLib "salt" ⟨"u1," ++ longPassword, []⟩
      emptyClient "u1" longPassword rfl rfl).2 "bcrypt: password length exceeds 72 bytes" rfl⟩

/-! ## C2: login after registration -/

/-- C2, counterexample: the hasher keys on the first 72 bytes of a password, as
bcrypt does, and accepts every password it hashed.  `u1` is absent from the
empty store and registers with a password of 72 bytes (201); one second later a
login with a different password, of 73 bytes, is answered 200 "Login
successful", not 401. -/
theorem loginHandler_second_login_other_password_accepted :
    truncLib.VerifiesOwn ∧
    truncLib.decodeLoginRequest ("u1," ++ password72) = Except.ok ⟨"u1", password72⟩ ∧
    truncLib.decodeLoginRequest ("u1," ++ longPassword) = Except.ok ⟨"u1", longPassword⟩ ∧
    (emptyClient.Get "u1").1 = Except.error RedisError.Nil ∧
    (loginHandler truncLib "s1" ⟨"u1," ++ password72, []⟩ emptyClient).1.statusCode
      = StatusCreated ∧
    longPassword ≠ password72 ∧
    (loginHandler truncLib "s2" ⟨"u1," ++ longPassword, []⟩
      ((loginHandler truncLib "s1" ⟨"u1," ++ password72, []⟩ emptyClient).2.advance
        Second)).1.statusCode = StatusOK ∧
    (loginHandler truncLib "s2" ⟨"u1," ++ longPassword, []⟩
      ((loginHandler truncLib "s1" ⟨"u1," ++ password72, []⟩ emptyClient).2.advance
        Second)).1.statusCode ≠ StatusUnauthorized ∧
    (loginHandler truncLib "s2" ⟨"u1," ++ longPassword, []⟩
      ((loginHandler truncLib "s1" ⟨"u1," ++ password72, []⟩ emptyClient).2.advance
        Second)).1.body = "Login successful" := by
  refine ⟨truncLib_verifiesOwn, rfl, rfl, rfl, ?_, ?_, ?_, ?_, ?_⟩ <;> decide

/-- C2, amended: for every identifier `u` and all passwords `p`, `q`: once a
first `loginHandler` call with `(u, p)` has answered 201 (which it does only for
an identifier absent from the store), `h` being the hash produced for `p`, the
store holds `h` under `u`, and a second call with `(u, q)` made `d` nanoseconds
later, `d` less than 10 minutes, with no store command in between and with the
store serving the lookup, answers 200 "Login successful" when the verification
of `q` against `h` succeeds and 401 "login error" when it fails; when `q = p`
it answers 200 for a hasher that accepts the password it hashed. -/
theorem loginHandler_second_login (L : Lib) (rnd1 rnd2 : String) (r1 r2 : Request)
    (db : Client) (u p q h : String) (d : Nat)
    (hbody1 : L.decodeLoginRequest r1.body = Except.ok ⟨u, p⟩)
    (hbody2 : L.decodeLoginRequest r2.body = Except.ok ⟨u, q⟩)
    (hcreated : (loginHandler L rnd1 r1 db).1.statusCode = StatusCreated)
    (hhash : L.GenerateFromPassword rnd1 p DefaultCost = Except.ok h)
    (hwindow : d < 10 * Minute)
    (hserved : ((loginHandler L rnd1 r1 db).2.advance d).fault = none) :
    (db.Get u).1 = Except.error RedisError.Nil ∧
    ((loginHandler L rnd1 r1 db).2.advance d).lookup u
      = some ⟨h, some (db.now + 10 * Minute)⟩ ∧
    (L.CompareHashAndPassword h q = Except.ok () →
      (loginHandler L rnd2 r2 ((loginHandler L rnd1 r1 db).2.advance d)).1.statusCode = StatusOK ∧
      (loginHandler L rnd2 r2 ((loginHandler L rnd1 r1 db).2.advance d)).1.body
        = "Login successful") ∧
    (∀ e, L.CompareHashAndPassword h q = Except.error e →
      (loginHandler L rnd2 r2 ((loginHandler L rnd1 r1 db).2.advance d)).1.statusCode
        = StatusUnauthorized ∧
      (loginHandler L rnd2 r2 ((loginHandler L rnd1 r1 db).2.advance d)).1.body
        = "login error\n") ∧
    (L.VerifiesOwn → q = p →
      (loginHandler L rnd2 r2 ((loginHandler L rnd1 r1 db).2.advance d)).1.statusCode = StatusOK ∧
      (loginHandler L rnd2 r2 ((loginHandler L rnd1 r1 db).2.advance d)).1.body
        = "Login successful") := by
  obtain ⟨h1, hH, -, hL⟩ := login_created_lookup L rnd1 r1 db u p hbody1 hcreated
  obtain rfl : h1 = h := by
    rw [hH] at hhash
    exact Except.ok.inj hhash
  have hl : ((loginHandler L rnd1 r1 db).2.advance d).lookup u
      = some ⟨h1, some (db.now + 10 * Minute)⟩ := by
    rw [hL d, if_pos hwindow]
  have hget : (((loginHandler L rnd1 r1 db).2.advance d).Get u).1 = Except.ok h1 :=
    (Get_ok_iff _ _ _).2 ⟨hserved, ⟨h1, some (db.now + 10 * Minute)⟩, hl, rfl⟩
  rw [login_found L rnd2 r2 _ u q h1 hbody2 hget]
  refine ⟨(login_created_inv L rnd1 r1 db u p hbody1 hcreated).1, hl, ?_, ?_, ?_⟩
  · intro hok
    rw [hok]
    exact ⟨rfl, write_body _⟩
  · intro e he
    rw [he]
    exact ⟨rfl, httpError_body _ _⟩
  · intro hown hq
    subst hq
    rw [hown rnd1 q DefaultCost h1 hH]
    exact ⟨rfl, write_body _⟩

/-- C2, instance: `u1` registers with `secret` on the empty store and logs in
one second later, once with `secret` (200) and once with `Secret` (401). -/
theorem loginHandler_second_login_witness :
    ((loginHandler sampleLib "s2" ⟨"u1,secret", []⟩
        ((loginHandler sampleLib "s1" ⟨"u1,secret", []⟩ emptyClient).2.advance Second)).1.statusCode
        = StatusOK ∧
      (loginHandler sampleLib "s2" ⟨"u1,secret", []⟩
        ((loginHandler sampleLib "s1" ⟨"u1,secret", []⟩ emptyClient).2.advance Second)).1.body
        = "Login successful") ∧
    ((loginHandler sampleLib "s2" ⟨"u1,Secret", []⟩
        ((loginHandler sampleLib "s1" ⟨"u1,secret", []⟩ emptyClient).2.advance Second)).1.statusCode
        = StatusUnauthorized ∧
      (loginHandler sampleLib "s2" ⟨"u1,Secret", []⟩
        ((loginHandler sampleLib "s1" ⟨"u1,secret", []⟩ emptyClient).2.advance Second)).1.body
        = "login error\n") ∧
    ((loginHandler sampleLib "s2" ⟨"u1,secret", []⟩
        ((loginHandler sampleLib "s1" ⟨"u1,secret", []⟩ emptyClient).2.advance Second)).1.statusCode
        = StatusOK ∧
      (loginHandler sampleLib "s2" ⟨"u1,secret", []⟩
        ((loginHandler sampleLib "s1" ⟨"u1,secret", []⟩ emptyClient).2.advance Second)).1.body
        = "Login successful") :=
  ⟨(loginHandler_second_login sampleLib "s1" "s2" ⟨"u1,secret", []⟩ ⟨"u1,secret", []⟩
      emptyClient "u1" "secret" "secret" "$2a$10$secret" Second rfl rfl (by decide) rfl
      (by decide) rfl).2.2.1 rfl,
    (loginHandler_second_login sampleLib "s1" "s2" ⟨"u1,secret", []⟩ ⟨"u1,Secret", []⟩
      emptyClient "u1" "secret" "Secret" "$2a$10$secret" Second rfl rfl (by decide) rfl
      (by decide) rfl).2.2.2.1 "hashedPassword is not the hash of the given password" rfl,
    (loginHandler_second_login sampleLib "s1" "s2" ⟨"u1,secret", []⟩ ⟨"u1,secret", []⟩
      emptyClient "u1" "secret" "secret" "$2a$10$secret" Second rfl rfl (by decide) rfl
      (by decide) rfl).2.2.2.2 sampleLib_verifiesOwn rfl⟩

/-! ## C8: expiry of a credential record -/

/-- C8: a credential record is created by `loginHandler` at the instant `T0` of
the store (response 201).  A login with the same identifier and password one
second later, the store serving the lookup and the hasher accepting the
password it hashed, answers 200 and issues nothing but that lookup; and at
every instant `T0 + 1s + d` that is at least `T0 + 10min`, no store command
having been issued since, the identifier is gone from the store and a served
lookup returns not-found: the login in between did not extend the record. -/
theorem credential_expires (L : Lib) (rnd1 rnd2 : String) (r : Request) (db : Client)
    (u p : String)
    (hbody : L.decodeLoginRequest r.body = Except.ok ⟨u, p⟩)
    (hcreated : (loginHandler L rnd1 r db).1.statusCode = StatusCreated)
    (hserved : ((loginHandler L rnd1 r db).2.advance Second).fault = none)
    (hown : L.VerifiesOwn) :
    (loginHandler L rnd2 r ((loginHandler L rnd1 r db).2.advance Second)).1.statusCode
      = StatusOK ∧
    (loginHandler L rnd2 r ((loginHandler L rnd1 r db).2.advance Second)).2
      = ((loginHandler L rnd1 r db).2.advance Second).issue (Cmd.get u) ∧
    ∀ d, 10 * Minute ≤ Second + d →
      ((loginHandler L rnd2 r ((loginHandler L rnd1 r db).2.advance Second)).2.advance d).now
        = db.now + Second + d ∧
      ((loginHandler L rnd2 r ((loginHandler L rnd1 r db).2.advance Second)).2.advance d).lookup u
        = none ∧
      (((loginHandler L rnd2 r ((loginHandler L rnd1 r db).2.advance Second)).2.advance d).fault
          = none →
        (((loginHandler L rnd2 r
          ((loginHandler L rnd1 r db).2.advance Second)).2.advance d).Get u).1
          = Except.error RedisError.Nil) := by
  obtain ⟨h, hH, hnow, hL⟩ := login_created_lookup L rnd1 r db u p hbody hcreated
  have hget : (((loginHandler L rnd1 r db).2.advance Second).Get u).1 = Except.ok h :=
    (Get_ok_iff _ _ _).2
      ⟨hserved, ⟨h, some (db.now + 10 * Minute)⟩, by rw [hL Second, if_pos (by decide)], rfl⟩
  rw [login_found L rnd2 r _ u p h hbody hget, hown rnd1 p DefaultCost h hH]
  refine ⟨rfl, rfl, ?_⟩
  intro d hd
  have hgone : ((((loginHandler L rnd1 r db).2.advance Second).issue (Cmd.get u)).advance d).lookup u
      = none := by
    rw [lookup_advance_issue_advance, hL, if_neg (Nat.not_lt.2 hd)]
  refine ⟨?_, hgone, fun hf => (Get_nil_iff _ _).2 ⟨hf, hgone⟩⟩
  show (loginHandler L rnd1 r db).2.now + Second + d = db.now + Second + d
  rw [hnow]

/-- C8, instance: `u1` is created at instant 0, logs in at 1s, and is looked up
at 11min (1s + 659s). -/
theorem credential_expires_witness :
    (loginHandler sampleLib "s2" ⟨"u1,secret", []⟩
      ((loginHandler sampleLib "s1" ⟨"u1,secret", []⟩ emptyClient).2.advance Second)).1.statusCode
      = StatusOK ∧
    (((loginHandler sampleLib "s2" ⟨"u1,secret", []⟩
      ((loginHandler sampleLib "s1" ⟨"u1,secret", []⟩ emptyClient).2.advance
        Second)).2.advance (659 * Second)).Get "u1").1 = Except.error RedisError.Nil :=
  ⟨(credential_expires sampleLib "s1" "s2" ⟨"u1,secret", []⟩ emptyClient "u1" "secret"
      rfl (by decide) rfl sampleLib_verifiesOwn).1,
    ((credential_expires sampleLib "s1" "s2" ⟨"u1,secret", []⟩ emptyClient "u1" "secret"
      rfl (by decide) rfl sampleLib_verifiesOwn).2.2 (659 * Second) (by decide)).2.2 rfl⟩

/-! ## C10: a credential read back as an item -/

/-- C10: for every identifier `u` and password `p`, once `loginHandler` has
registered `u` (201) there is a hash `h`, the one the hasher produced for `p`
and the one the store holds under `u`, such that `getItemHandler` for id `u`,
`d` nanoseconds later with `d` less than 10 minutes, no store command in
between and the store serving the lookup, answers 200 with the encoding of the
item `(id u, value h)`. -/
theorem credential_aliases_item (L : Lib) (rnd : String) (r rg : Request) (db : Client)
    (u p : String) (d : Nat)
    (hbody : L.decodeLoginRequest r.body = Except.ok ⟨u, p⟩)
    (hcreated : (loginHandler L rnd r db).1.statusCode = StatusCreated)
    (hid : rg.var "id" = u)
    (hwindow : d < 10 * Minute)
    (hserved : ((loginHandler L rnd r db).2.advance d).fault = none) :
    ∃ h, L.GenerateFromPassword rnd p DefaultCost = Except.ok h ∧
      (loginHandler L rnd r db).2.lookup u = some ⟨h, some (db.now + 10 * Minute)⟩ ∧
      (getItemHandler L rg ((loginHandler L rnd r db).2.advance d)).1.statusCode = StatusOK ∧
      (getItemHandler L rg ((loginHandler L rnd r db).2.advance d)).1.body
        = L.encodeItem ⟨u, h⟩ := by
  obtain ⟨h, hH, -, hL⟩ := login_created_lookup L rnd r db u p hbody hcreated
  have hget : (((loginHandler L rnd r db).2.advance d).Get u).1 = Except.ok h :=
    (Get_ok_iff _ _ _).2 ⟨hserved, ⟨h, some (db.now + 10 * Minute)⟩, by rw [hL d, if_pos hwindow], rfl⟩
  have hg := Get_eq ((loginHandler L rnd r db).2.advance d) u
  rw [hget] at hg
  refine ⟨h, hH, ?_, ?_, ?_⟩
  · have := hL 0
    rwa [advance_zero, if_pos (by decide)] at this
  · simp only [getItemHandler, hid, hg]
    rfl
  · simp only [getItemHandler, hid, hg]
    exact write_body _

/-- C10, instance: `u1` registers with `secret` and is read as an item one
second later. -/
theorem credential_aliases_item_witness :
    ∃ h, sampleLib.GenerateFromPassword "s1" "secret" DefaultCost = Except.ok h ∧
      (loginHandler sampleLib "s1" ⟨"u1,secret", []⟩ emptyClient).2.lookup "u1"
        = some ⟨h, some (emptyClient.now + 10 * Minute)⟩ ∧
      (getItemHandler sampleLib ⟨"", [("id", "u1")]⟩
        ((loginHandler sampleLib "s1" ⟨"u1,secret", []⟩ emptyClient).2.advance Second)).1.statusCode
        = StatusOK ∧
      (getItemHandler sampleLib ⟨"", [("id", "u1")]⟩
        ((loginHandler sampleLib "s1" ⟨"u1,secret", []⟩ emptyClient).2.advance Second)).1.body
        = sampleLib.encodeItem ⟨"u1", h⟩ :=
  credential_aliases_item sampleLib "s1" ⟨"u1,secret", []⟩ ⟨"", [("id", "u1")]⟩ emptyClient
    "u1" "secret" Second rfl (by decide) rfl (by decide) rfl

/-! ## C4, C5: items written and read back -/

theorem create_malformed (L : Lib) (r : Request) (db : Client) (e : String)
    (hbody : L.decodeItem r.body = Except.error e) :
    createItemHandler L r db =
      (httpError ResponseWriter.fresh "error creating item" StatusBadRequest, db) := by
  simp [createItemHandler, hbody]

theorem create_served (L : Lib) (r : Request) (db : Client) (item : Item)
    (hbody : L.decodeItem r.body = Except.ok item) (hf : db.fault = none) :
    createItemHandler L r db =
      ((ResponseWriter.fresh.WriteHeader StatusCreated).Write (L.encodeItem item),
        (db.Set item.ID item.Value 0).2) := by
  simp [createItemHandler, hbody, Set_served _ _ _ _ hf]

theorem create_failed (L : Lib) (r : Request) (db : Client) (item : Item) (msg : String)
    (hbody : L.decodeItem r.body = Except.ok item) (hf : db.fault = some msg) :
    createItemHandler L r db =
      (httpError ResponseWriter.fresh "error storing item" StatusInternalServerError,
        db.issue (Cmd.set item.ID item.Value 0)) := by
  simp [createItemHandler, hbody, Set_failed _ _ _ _ _ hf]

theorem update_malformed (L : Lib) (r : Request) (db : Client) (e : String)
    (hbody : L.decodeItem r.body = Except.error e) :
    updateItemHandler L r db =
      (httpError ResponseWriter.fresh "failed to decode the request body for item update"
        StatusBadRequest, db) := by
  simp [updateItemHandler, hbody]

theorem update_served (L : Lib) (r : Request) (db : Client) (item : Item)
    (hbody : L.decodeItem r.body = Except.ok item) (hf : db.fault = none) :
    updateItemHandler L r db =
      ((ResponseWriter.fresh.WriteHeader StatusOK).Write (L.encodeItem item),
        (db.Set (r.var "id") item.Value 0).2) := by
  simp [updateItemHandler, hbody, Set_served _ _ _ _ hf]

theorem update_failed (L : Lib) (r : Request) (db : Client) (item : Item) (msg : String)
    (hbody : L.decodeItem r.body = Except.ok item) (hf : db.fault = some msg) :
    updateItemHandler L r db =
      (httpError ResponseWriter.fresh "error updating item" StatusInternalServerError,
        db.issue (Cmd.set (r.var "id") item.Value 0)) := by
  simp [updateItemHandler, hbody, Set_failed _ _ _ _ _ hf]

/-- Reading, at any later instant, a key that a served `Set` wrote without a
deadline. -/
theorem get_after_set (L : Lib) (rg : Request) (c : Client) (key value : String) (d : Nat)
    (hf : c.fault = none) (hid : rg.var "id" = key)
    (hserved : ((c.Set key value 0).2.advance d).fault = none) :
    (getItemHandler L rg ((c.Set key value 0).2.advance d)).1
      = ResponseWriter.fresh.Write (L.encodeItem ⟨key, value⟩) := by
  have hl : ((c.Set key value 0).2.advance d).lookup key = some ⟨value, none⟩ := by
    rw [Set_lookup _ _ _ _ _ hf]
    simp [Entry.live, Option.filter]
  have hget : (((c.Set key value 0).2.advance d).Get key).1 = Except.ok value :=
    (Get_ok_iff _ _ _).2 ⟨hserved, ⟨value, none⟩, hl, rfl⟩
  have hg := Get_eq ((c.Set key value 0).2.advance d) key
  rw [hget] at hg
  simp only [getItemHandler, hid, hg]

/-- C4: for every store state and all strings `x`, `v`, when `createItemHandler`
on a body decoding to `(id x, value v)` answers 201, its body is the encoding
of that item, and a `getItemHandler` for id `x` that follows (at once or after
any delay `d`, no store command in between, the store serving the lookup)
answers 200 with the encoding of exactly `(id x, value v)`, whatever the store
held under `x` before. -/
theorem item_round_trip (L : Lib) (rc rg : Request) (db : Client) (x v : String) (d : Nat)
    (hbody : L.decodeItem rc.body = Except.ok ⟨x, v⟩)
    (hcreated : (createItemHandler L rc db).1.statusCode = StatusCreated)
    (hid : rg.var "id" = x)
    (hserved : ((createItemHandler L rc db).2.advance d).fault = none) :
    (createItemHandler L rc db).1.body = L.encodeItem ⟨x, v⟩ ∧
    (getItemHandler L rg ((createItemHandler L rc db).2.advance d)).1.statusCode = StatusOK ∧
    (getItemHandler L rg ((createItemHandler L rc db).2.advance d)).1.body
      = L.encodeItem ⟨x, v⟩ := by
  have hf : db.fault = none := by
    rcases hF : db.fault with _ | msg
    · rfl
    · rw [create_failed L rc db _ msg hbody hF, httpError_status] at hcreated
      exact absurd hcreated (by decide)
  rw [create_served L rc db _ hbody hf] at hserved ⊢
  rw [get_after_set L rg db x v d hf hid hserved]
  exact ⟨header_write_body _ _, rfl, write_body _⟩

/-- C4, instance: `x ↦ v` is created over an older value of `x` and read back. -/
theorem item_round_trip_witness :
    (createItemHandler sampleLib ⟨"x,v2", []⟩ oneItemClient).1.body
      = sampleLib.encodeItem ⟨"x", "v2"⟩ ∧
    (getItemHandler sampleLib ⟨"", [("id", "x")]⟩
      ((createItemHandler sampleLib ⟨"x,v2", []⟩ oneItemClient).2.advance 0)).1.statusCode
      = StatusOK ∧
    (getItemHandler sampleLib ⟨"", [("id", "x")]⟩
      ((createItemHandler sampleLib ⟨"x,v2", []⟩ oneItemClient).2.advance 0)).1.body
      = sampleLib.encodeItem ⟨"x", "v2"⟩ :=
  item_round_trip sampleLib ⟨"x,v2", []⟩ ⟨"", [("id", "x")]⟩ oneItemClient "x" "v2" 0
    rfl (by decide) rfl rfl

/-- C5: for every item id absent from the store (a read of it would be answered
404) and every body decoding to an item, `updateItemHandler` for that id, the
store serving the write, answers 200 with the encoding of the body item;
afterwards the item is readable: `getItemHandler` for the same id (after any
delay `d`, no store command in between, the store serving the lookup) answers
200 with the encoding of that id and the body value. -/
theorem update_is_upsert (L : Lib) (ru rg : Request) (db : Client) (id : String) (item : Item)
    (d : Nat)
    (hru : ru.var "id" = id) (hrg : rg.var "id" = id)
    (habsent : db.lookup id = none)
    (hbody : L.decodeItem ru.body = Except.ok item)
    (hset : db.fault = none)
    (hserved : ((updateItemHandler L ru db).2.advance d).fault = none) :
    (getItemHandler L rg db).1.statusCode = StatusNotFound ∧
    (updateItemHandler L ru db).1.statusCode = StatusOK ∧
    (updateItemHandler L ru db).1.body = L.encodeItem item ∧
    (getItemHandler L rg ((updateItemHandler L ru db).2.advance d)).1.statusCode = StatusOK ∧
    (getItemHandler L rg ((updateItemHandler L ru db).2.advance d)).1.body
      = L.encodeItem ⟨id, item.Value⟩ := by
  have hbefore : (getItemHandler L rg db).1.statusCode = StatusNotFound := by
    have hg := Get_eq db id
    rw [(Get_nil_iff db id).2 ⟨hset, habsent⟩] at hg
    simp only [getItemHandler, hrg, hg]
    rfl
  rw [update_served L ru db item hbody hset, hru] at hserved ⊢
  rw [get_after_set L rg db id item.Value d hset hrg hserved]
  exact ⟨hbefore, rfl, header_write_body _ _, rfl, write_body _⟩

/-- C5, instance: on the empty store, `PUT /items/x` with a body whose id is
`y` and value `v` makes `x` readable with value `v`. -/
theorem update_is_upsert_witness :
    (getItemHandler sampleLib ⟨"", [("id", "x")]⟩ emptyClient).1.statusCode = StatusNotFound ∧
    (updateItemHandler sampleLib ⟨"y,v", [("id", "x")]⟩ emptyClient).1.statusCode = StatusOK ∧
    (updateItemHandler sampleLib ⟨"y,v", [("id", "x")]⟩ emptyClient).1.body
      = sampleLib.encodeItem ⟨"y", "v"⟩ ∧
    (getItemHandler sampleLib ⟨"", [("id", "x")]⟩
      ((updateItemHandler sampleLib ⟨"y,v", [("id", "x")]⟩ emptyClient).2.advance 0)).1.statusCode
      = StatusOK ∧
    (getItemHandler sampleLib ⟨"", [("id", "x")]⟩
      ((updateItemHandler sampleLib ⟨"y,v", [("id", "x")]⟩ emptyClient).2.advance 0)).1.body
      = sampleLib.encodeItem ⟨"x", (⟨"y", "v"⟩ : Item).Value⟩ :=
  update_is_upsert sampleLib ⟨"y,v", [("id", "x")]⟩ ⟨"", [("id", "x")]⟩ emptyClient "x"
    ⟨"y", "v"⟩ 0 rfl rfl rfl rfl rfl rfl

/-! ## C9: deleting an absent item -/

theorem Del_served (c : Client) (key : String) (h : c.fault = none) :
    c.Del key =
      (Except.ok (),
        { c.issue (Cmd.del key) with data := fun k => if k = key then none else c.data k }) := by
  unfold Client.Del
  simp [h]

theorem Del_failed (c : Client) (key msg : String) (h : c.fault = some msg) :
    c.Del key = (Except.error (RedisError.other msg), c.issue (Cmd.del key)) := by
  unfold Client.Del
  simp [h]

/-- An entry that is not readable now is not readable later. -/
theorem expired_stays_expired (c : Client) (key : String) (d : Nat)
    (h : c.lookup key = none) : (c.advance d).lookup key = none := by
  unfold Client.lookup Client.advance at *
  cases hd : c.data key with
  | none => simp
  | some e =>
    rw [hd] at h
    cases he : e.expireAt with
    | none => simp [Option.filter, Entry.live, he] at h
    | some t =>
      simp [Option.filter, Entry.live, he] at h ⊢
      omega

/-- C9: for every store state and every id absent from the store,
`deleteItemHandler` for that id, the store serving the command, answers 204
with an empty body, and the store is unchanged: at the current instant and at
every later one each key reads as it would have without the request, and the
clock is untouched. -/
theorem delete_absent_item (r : Request) (db : Client)
    (habsent : db.lookup (r.var "id") = none)
    (hserved : db.fault = none) :
    (deleteItemHandler r db).1.statusCode = StatusNoContent ∧
    (deleteItemHandler r db).1.body = "" ∧
    (deleteItemHandler r db).2.now = db.now ∧
    (∀ k, (deleteItemHandler r db).2.lookup k = db.lookup k) ∧
    ∀ d k, ((deleteItemHandler r db).2.advance d).lookup k = (db.advance d).lookup k := by
  have hall : ∀ d k, ((deleteItemHandler r db).2.advance d).lookup k = (db.advance d).lookup k := by
    intro d k
    simp only [deleteItemHandler, Del_served _ _ hserved]
    by_cases hk : k = r.var "id"
    · subst hk
      rw [expired_stays_expired db _ d habsent]
      simp [Client.lookup, Client.advance, Client.issue]
    · simp [Client.lookup, Client.advance, Client.issue, hk]
  refine ⟨?_, ?_, ?_, fun k => hall 0 k, hall⟩
  all_goals simp only [deleteItemHandler, Del_served _ _ hserved]
  all_goals rfl

/-- C9, instance: `DELETE /items/ghost` on a store that holds only `x`. -/
theorem delete_absent_item_witness :
    (deleteItemHandler ⟨"", [("id", "ghost")]⟩ oneItemClient).1.statusCode = StatusNoContent ∧
    (deleteItemHandler ⟨"", [("id", "ghost")]⟩ oneItemClient).1.body = "" ∧
    (deleteItemHandler ⟨"", [("id", "ghost")]⟩ oneItemClient).2.now = oneItemClient.now ∧
    (∀ k, (deleteItemHandler ⟨"", [("id", "ghost")]⟩ oneItemClient).2.lookup k
      = oneItemClient.lookup k) ∧
    ∀ d k, ((deleteItemHandler ⟨"", [("id", "ghost")]⟩ oneItemClient).2.advance d).lookup k
      = (oneItemClient.advance d).lookup k :=
  delete_absent_item ⟨"", [("id", "ghost")]⟩ oneItemClient rfl rfl

/-! ## C6: store errors -/

theorem Del_error_iff (c : Client) (key : String) (e : RedisError) :
    (c.Del key).1 = Except.error e ↔ ∃ msg, c.fault = some msg ∧ e = RedisError.other msg := by
  unfold Client.Del
  cases c.fault <;> simp
  exact eq_comm

/-- C6: in every handler, when its store command fails with a store error (for
a lookup: an error other than not-found), the response status is 500 and the
failed command is the last one the request issues: the command record of the
store afterwards is the record before followed by the commands up to and
including the failed one.  In order: the lookup and the write of
`loginHandler`, the write of `createItemHandler`, the lookup of
`getItemHandler`, the write of `updateItemHandler`, the delete of
`deleteItemHandler`. -/
theorem store_error_is_500_without_retry (L : Lib) (rnd : String) (r : Request) (db : Client) :
    (∀ u p msg, L.decodeLoginRequest r.body = Except.ok ⟨u, p⟩ →
      (db.Get u).1 = Except.error (RedisError.other msg) →
      (loginHandler L rnd r db).1.statusCode = StatusInternalServerError ∧
      (loginHandler L rnd r db).2.log = db.log ++ [Cmd.get u]) ∧
    (∀ u p h e, L.decodeLoginRequest r.body = Except.ok ⟨u, p⟩ →
      (db.Get u).1 = Except.error RedisError.Nil →
      L.GenerateFromPassword rnd p DefaultCost = Except.ok h →
      ((db.Get u).2.Set u h (10 * Minute)).1 = Except.error e →
      (loginHandler L rnd r db).1.statusCode = StatusInternalServerError ∧
      (loginHandler L rnd r db).2.log = db.log ++ [Cmd.get u, Cmd.set u h (10 * Minute)]) ∧
    (∀ item e, L.decodeItem r.body = Except.ok item →
      (db.Set item.ID item.Value 0).1 = Except.error e →
      (createItemHandler L r db).1.statusCode = StatusInternalServerError ∧
      (createItemHandler L r db).2.log = db.log ++ [Cmd.set item.ID item.Value 0]) ∧
    (∀ msg, (db.Get (r.var "id")).1 = Except.error (RedisError.other msg) →
      (getItemHandler L r db).1.statusCode = StatusInternalServerError ∧
      (getItemHandler L r db).2.log = db.log ++ [Cmd.get (r.var "id")]) ∧
    (∀ item e, L.decodeItem r.body = Except.ok item →
      (db.Set (r.var "id") item.Value 0).1 = Except.error e →
      (updateItemHandler L r db).1.statusCode = StatusInternalServerError ∧
      (updateItemHandler L r db).2.log = db.log ++ [Cmd.set (r.var "id") item.Value 0]) ∧
    (∀ e, (db.Del (r.var "id")).1 = Except.error e →
      (deleteItemHandler r db).1.statusCode = StatusInternalServerError ∧
      (deleteItemHandler r db).2.log = db.log ++ [Cmd.del (r.var "id")]) := by
  refine ⟨?_, ?_, ?_, ?_, ?_, ?_⟩
  · intro u p msg hbody hget
    rw [login_get_failed L rnd r db u p msg hbody hget]
    exact ⟨rfl, rfl⟩
  · intro u p h e hbody hget hhash hset
    rw [Get_snd] at hset
    rw [login_set_failed L rnd r db u p h e hbody hget hhash hset]
    refine ⟨rfl, ?_⟩
    rw [Set_log]
    simp [Client.issue]
  · intro item e hbody hset
    obtain ⟨msg, hf, -⟩ := (Set_error_iff _ _ _ _ _).1 hset
    rw [create_failed L r db item msg hbody hf]
    exact ⟨rfl, rfl⟩
  · intro msg hget
    have hg := Get_eq db (r.var "id")
    rw [hget] at hg
    simp only [getItemHandler, hg]
    exact ⟨rfl, rfl⟩
  · intro item e hbody hset
    obtain ⟨msg, hf, -⟩ := (Set_error_iff _ _ _ _ _).1 hset
    rw [update_failed L r db item msg hbody hf]
    exact ⟨rfl, rfl⟩
  · intro e hdel
    obtain ⟨msg, hf, -⟩ := (Del_error_iff _ _ _).1 hdel
    simp only [deleteItemHandler, Del_failed _ _ _ hf]
    exact ⟨rfl, rfl⟩

/-- C6, instance: every handler on a store whose commands fail, and the login
of a new identifier on a store whose second command (the write) fails. -/
theorem store_error_is_500_without_retry_witness :
    ((loginHandler sampleLib "s" ⟨"u1,secret", [("id", "x")]⟩ downClient).1.statusCode
        = StatusInternalServerError ∧
      (loginHandler sampleLib "s" ⟨"u1,secret", [("id", "x")]⟩ downClient).2.log
        = downClient.log ++ [Cmd.get "u1"]) ∧
    ((loginHandler sampleLib "s" ⟨"u1,secret", []⟩ flakyClient).1.statusCode
        = StatusInternalServerError ∧
      (loginHandler sampleLib "s" ⟨"u1,secret", []⟩ flakyClient).2.log
        = flakyClient.log ++ [Cmd.get "u1", Cmd.set "u1" "$2a$10$secret" (10 * Minute)]) ∧
    ((createItemHandler sampleLib ⟨"x,v", []⟩ downClient).1.statusCode
        = StatusInternalServerError ∧
      (createItemHandler sampleLib ⟨"x,v", []⟩ downClient).2.log
        = downClient.log ++ [Cmd.set (⟨"x", "v"⟩ : Item).ID (⟨"x", "v"⟩ : Item).Value 0]) ∧
    ((getItemHandler sampleLib ⟨"", [("id", "x")]⟩ downClient).1.statusCode
        = StatusInternalServerError ∧
      (getItemHandler sampleLib ⟨"", [("id", "x")]⟩ downClient).2.log
        = downClient.log ++ [Cmd.get ((⟨"", [("id", "x")]⟩ : Request).var "id")]) ∧
    ((updateItemHandler sampleLib ⟨"x,v", [("id", "x")]⟩ downClient).1.statusCode
        = StatusInternalServerError ∧
      (updateItemHandler sampleLib ⟨"x,v", [("id", "x")]⟩ downClient).2.log
        = downClient.log ++
          [Cmd.set ((⟨"x,v", [("id", "x")]⟩ : Request).var "id") (⟨"x", "v"⟩ : Item).Value 0]) ∧
    ((deleteItemHandler ⟨"", [("id", "x")]⟩ downClient).1.statusCode
        = StatusInternalServerError ∧
      (deleteItemHandler ⟨"", [("id", "x")]⟩ downClient).2.log
        = downClient.log ++ [Cmd.del ((⟨"", [("id", "x")]⟩ : Request).var "id")]) :=
  ⟨(store_error_is_500_without_retry sampleLib "s" ⟨"u1,secret", [("id", "x")]⟩ downClient).1
      "u1" "secret" "connection refused" rfl rfl,
    (store_error_is_500_without_retry sampleLib "s" ⟨"u1,secret", []⟩ flakyClient).2.1
      "u1" "secret" "$2a$10$secret" (RedisError.other "connection reset") rfl rfl rfl rfl,
    (store_error_is_500_without_retry sampleLib "s" ⟨"x,v", []⟩ downClient).2.2.1
      ⟨"x", "v"⟩ (RedisError.other "connection refused") rfl rfl,
    (store_error_is_500_without_retry sampleLib "s" ⟨"", [("id", "x")]⟩ downClient).2.2.2.1
      "connection refused" rfl,
    (store_error_is_500_without_retry sampleLib "s" ⟨"x,v", [("id", "x")]⟩ downClient).2.2.2.2.1
      ⟨"x", "v"⟩ (RedisError.other "connection refused") rfl rfl,
    (store_error_is_500_without_retry sampleLib "s" ⟨"", [("id", "x")]⟩ downClient).2.2.2.2.2
      (RedisError.other "connection refused") rfl⟩

/-! ## C3: malformed bodies -/

/-- C3, counterexample: the body is cut-off JSON, which the decoder rejects, and
the store holds the item `x`; `deleteItemHandler` answers 204, not 400, and
removes `x`, and `getItemHandler` answers 200, not 400. -/
theorem malformed_body_not_rejected_by_delete_and_get :
    sampleLib.decodeItem "\x7b\"id\":" = Except.error "unexpected end of input" ∧
    oneItemClient.lookup "x" = some ⟨"v", none⟩ ∧
    (deleteItemHandler ⟨"\x7b\"id\":", [("id", "x")]⟩ oneItemClient).1.statusCode
      = StatusNoContent ∧
    (deleteItemHandler ⟨"\x7b\"id\":", [("id", "x")]⟩ oneItemClient).2.lookup "x" = none ∧
    (getItemHandler sampleLib ⟨"\x7b\"id\":", [("id", "x")]⟩ oneItemClient).1.statusCode
      = StatusOK := by
  refine ⟨rfl, rfl, ?_, rfl, ?_⟩ <;> decide

/-- C3, amended: for `loginHandler`, `createItemHandler` and `updateItemHandler`,
every store state and every request whose body fails to decode, the response
status is 400 and the store after the request equals the store before it (no
command is issued).  `getItemHandler` and `deleteItemHandler` never read the
body: their response and their effect on the store are the same for every
body. -/
theorem malformed_body_rejected_where_read (L : Lib) (rnd : String) (r : Request)
    (db : Client) :
    (∀ e, L.decodeLoginRequest r.body = Except.error e →
      (loginHandler L rnd r db).1.statusCode = StatusBadRequest ∧
      (loginHandler L rnd r db).2 = db) ∧
    (∀ e, L.decodeItem r.body = Except.error e →
      (createItemHandler L r db).1.statusCode = StatusBadRequest ∧
      (createItemHandler L r db).2 = db) ∧
    (∀ e, L.decodeItem r.body = Except.error e →
      (updateItemHandler L r db).1.statusCode = StatusBadRequest ∧
      (updateItemHandler L r db).2 = db) ∧
    (∀ body, getItemHandler L ⟨body, r.vars⟩ db = getItemHandler L r db) ∧
    (∀ body, deleteItemHandler ⟨body, r.vars⟩ db = deleteItemHandler r db) := by
  refine ⟨?_, ?_, ?_, fun _ => rfl, fun _ => rfl⟩
  · intro e he
    rw [login_malformed L rnd r db e he]
    exact ⟨rfl, rfl⟩
  · intro e he
    rw [create_malformed L r db e he]
    exact ⟨rfl, rfl⟩
  · intro e he
    rw [update_malformed L r db e he]
    exact ⟨rfl, rfl⟩

/-- C3, instance: the three handlers that read a body, on cut-off JSON and a
store holding the item `x`. -/
theorem malformed_body_rejected_where_read_witness :
    ((loginHandler sampleLib "s" ⟨"\x7b\"id\":", [("id", "x")]⟩ oneItemClient).1.statusCode
        = StatusBadRequest ∧
      (loginHandler sampleLib "s" ⟨"\x7b\"id\":", [("id", "x")]⟩ oneItemClient).2
        = oneItemClient) ∧
    ((createItemHandler sampleLib ⟨"\x7b\"id\":", [("id", "x")]⟩ oneItemClient).1.statusCode
        = StatusBadRequest ∧
      (createItemHandler sampleLib ⟨"\x7b\"id\":", [("id", "x")]⟩ oneItemClient).2
        = oneItemClient) ∧
    ((updateItemHandler sampleLib ⟨"\x7b\"id\":", [("id", "x")]⟩ oneItemClient).1.statusCode
        = StatusBadRequest ∧
      (updateItemHandler sampleLib ⟨"\x7b\"id\":", [("id", "x")]⟩ oneItemClient).2
        = oneItemClient) :=
  ⟨(malformed_body_rejected_where_read sampleLib "s" ⟨"\x7b\"id\":", [("id", "x")]⟩
      oneItemClient).1 "unexpected end of input" rfl,
    (malformed_body_rejected_where_read sampleLib "s" ⟨"\x7b\"id\":", [("id", "x")]⟩
      oneItemClient).2.1 "unexpected end of input" rfl,
    (malformed_body_rejected_where_read sampleLib "s" ⟨"\x7b\"id\":", [("id", "x")]⟩
      oneItemClient).2.2.1 "unexpected end of input" rfl⟩

/-! ## C7: what the first login's response shows -/

/-- C7, counterexample: `u1` is absent from the empty store and registers with
the password `login`; the response is 201 and its body, "User created
successfully. Please login.", contains the plaintext password. -/
theorem first_login_body_contains_password :
    sampleLib.decodeLoginRequest "u1,login" = Except.ok ⟨"u1", "login"⟩ ∧
    (emptyClient.Get "u1").1 = Except.error RedisError.Nil ∧
    (loginHandler sampleLib "s" ⟨"u1,login", []⟩ emptyClient).1.statusCode = StatusCreated ∧
    "login".toList <:+: (loginHandler sampleLib "s" ⟨"u1,login", []⟩ emptyClient).1.body.toList := by
  refine ⟨rfl, rfl, by decide, ?_⟩
  decide

/-- C7, amended: for every identifier absent from the store and every password,
the body of `loginHandler`'s response to that first login is one of three fixed
texts, selected by the outcome of hashing and of the store write: "User created
successfully. Please login." with status 201 when hashing succeeds and the
store serves the write; "error hashing password" and a newline with status 500
when hashing fails; "error storing new user" and a newline with status 500 when
hashing succeeds and the write fails.  So a response that is 201 has the first
text as its body, a response that is not 201 is 500 with one of the two error
texts, and the body contains a string (the password, the hash or any other)
only if that string occurs in one of the three texts. -/
theorem first_login_body_is_fixed_text (L : Lib) (rnd : String) (r : Request) (db : Client)
    (u p : String)
    (hbody : L.decodeLoginRequest r.body = Except.ok ⟨u, p⟩)
    (habsent : (db.Get u).1 = Except.error RedisError.Nil) :
    (∀ h, L.GenerateFromPassword rnd p DefaultCost = Except.ok h →
      db.outage (db.log.length + 1) = none →
      (loginHandler L rnd r db).1.statusCode = StatusCreated ∧
      (loginHandler L rnd r db).1.body = "User created successfully. Please login.") ∧
    (∀ e, L.GenerateFromPassword rnd p DefaultCost = Except.error e →
      (loginHandler L rnd r db).1.statusCode = StatusInternalServerError ∧
      (loginHandler L rnd r db).1.body = "error hashing password\n") ∧
    (∀ h msg, L.GenerateFromPassword rnd p DefaultCost = Except.ok h →
      db.outage (db.log.length + 1) = some msg →
      (loginHandler L rnd r db).1.statusCode = StatusInternalServerError ∧
      (loginHandler L rnd r db).1.body = "error storing new user\n") ∧
    ((loginHandler L rnd r db).1.statusCode = StatusCreated →
      (loginHandler L rnd r db).1.body = "User created successfully. Please login.") ∧
    ((loginHandler L rnd r db).1.statusCode ≠ StatusCreated →
      (loginHandler L rnd r db).1.statusCode = StatusInternalServerError ∧
      ((loginHandler L rnd r db).1.body = "error hashing password\n" ∨
        (loginHandler L rnd r db).1.body = "error storing new user\n")) ∧
    ((loginHandler L rnd r db).1.body = "User created successfully. Please login." ∨
      (loginHandler L rnd r db).1.body = "error hashing password\n" ∨
      (loginHandler L rnd r db).1.body = "error storing new user\n") ∧
    ∀ x : String,
      ¬ x.toList <:+: "User created successfully. Please login.".toList →
      ¬ x.toList <:+: "error hashing password\n".toList →
      ¬ x.toList <:+: "error storing new user\n".toList →
      ¬ x.toList <:+: (loginHandler L rnd r db).1.body.toList := by
  have hfault : (db.issue (Cmd.get u)).fault = db.outage (db.log.length + 1) := by
    simp [Client.fault, Client.issue]
  have hA : ∀ h, L.GenerateFromPassword rnd p DefaultCost = Except.ok h →
      db.outage (db.log.length + 1) = none →
      (loginHandler L rnd r db).1.statusCode = StatusCreated ∧
      (loginHandler L rnd r db).1.body = "User created successfully. Please login." := by
    intro h hH hF
    rw [login_created L rnd r db u p h hbody habsent hH (hfault.trans hF)]
    exact ⟨rfl, header_write_body _ _⟩
  have hB : ∀ e, L.GenerateFromPassword rnd p DefaultCost = Except.error e →
      (loginHandler L rnd r db).1.statusCode = StatusInternalServerError ∧
      (loginHandler L rnd r db).1.body = "error hashing password\n" := by
    intro e hH
    rw [login_hash_failed L rnd r db u p e hbody habsent hH]
    exact ⟨rfl, httpError_body _ _⟩
  have hC : ∀ h msg, L.GenerateFromPassword rnd p DefaultCost = Except.ok h →
      db.outage (db.log.length + 1) = some msg →
      (loginHandler L rnd r db).1.statusCode = StatusInternalServerError ∧
      (loginHandler L rnd r db).1.body = "error storing new user\n" := by
    intro h msg hH hF
    have hs : ((db.issue (Cmd.get u)).Set u h (10 * Minute)).1
        = Except.error (RedisError.other msg) := by
      rw [Set_failed _ _ _ _ _ (hfault.trans hF)]
    rw [login_set_failed L rnd r db u p h _ hbody habsent hH hs]
    exact ⟨rfl, httpError_body _ _⟩
  have hcases : (loginHandler L rnd r db).1.body = "User created successfully. Please login." ∧
        (loginHandler L rnd r db).1.statusCode = StatusCreated ∨
      ((loginHandler L rnd r db).1.body = "error hashing password\n" ∨
        (loginHandler L rnd r db).1.body = "error storing new user\n") ∧
        (loginHandler L rnd r db).1.statusCode = StatusInternalServerError := by
    rcases hH : L.GenerateFromPassword rnd p DefaultCost with e | h
    · exact Or.inr ⟨Or.inl (hB e hH).2, (hB e hH).1⟩
    · rcases hF : db.outage (db.log.length + 1) with _ | msg
      · exact Or.inl ⟨(hA h hH hF).2, (hA h hH hF).1⟩
      · exact Or.inr ⟨Or.inr (hC h msg hH hF).2, (hC h msg hH hF).1⟩
  refine ⟨hA, hB, hC, ?_, ?_, ?_, ?_⟩
  · intro hst
    rcases hcases with ⟨hb, -⟩ | ⟨-, h500⟩
    · exact hb
    · rw [h500] at hst
      exact absurd hst (by decide)
  · intro hst
    rcases hcases with ⟨-, h201⟩ | ⟨hb, h500⟩
    · exact absurd h201 hst
    · exact ⟨h500, hb⟩
  · rcases hcases with ⟨hb, -⟩ | ⟨hb | hb, -⟩
    · exact Or.inl hb
    · exact Or.inr (Or.inl hb)
    · exact Or.inr (Or.inr hb)
  · intro x h1 h2 h3
    rcases hcases with ⟨hb, -⟩ | ⟨hb | hb, -⟩ <;> rw [hb] <;> assumption

/-- C7, instance: `u1` registers on the empty store with the password `secret`
(201), with a password the hasher rejects (500), and with `secret` on a store
whose write fails (500); the first body contains neither `secret` nor its
hash. -/
theorem first_login_body_is_fixed_text_witness :
    ((loginHandler sampleLib "s" ⟨"u1,secret", []⟩ emptyClient).1.statusCode = StatusCreated ∧
      (loginHandler sampleLib "s" ⟨"u1,secret", []⟩ emptyClient).1.body
        = "User created successfully. Please login.") ∧
    ((loginHandler sampleLib "s" ⟨"u1," ++ longPassword, []⟩ emptyClient).1.statusCode
        = StatusInternalServerError ∧
      (loginHandler sampleLib "s" ⟨"u1," ++ longPassword, []⟩ emptyClient).1.body
        = "error hashing password\n") ∧
    ((loginHandler sampleLib "s" ⟨"u1,secret", []⟩ flakyClient).1.statusCode
        = StatusInternalServerError ∧
      (loginHandler sampleLib "s" ⟨"u1,secret", []⟩ flakyClient).1.body
        = "error storing new user\n") ∧
    (loginHandler sampleLib "s" ⟨"u1,secret", []⟩ emptyClient).1.body
      = "User created successfully. Please login." ∧
    ((loginHandler sampleLib "s" ⟨"u1," ++ longPassword, []⟩ emptyClient).1.statusCode
        = StatusInternalServerError ∧
      ((loginHandler sampleLib "s" ⟨"u1," ++ longPassword, []⟩ emptyClient).1.body
          = "error hashing password\n" ∨
        (loginHandler sampleLib "s" ⟨"u1," ++ longPassword, []⟩ emptyClient).1.body
          = "error storing new user\n")) ∧
    ¬ "secret".toList <:+: (loginHandler sampleLib "s" ⟨"u1,secret", []⟩ emptyClient).1.body.toList ∧
    ¬ "$2a$10$secret".toList <:+:
      (loginHandler sampleLib "s" ⟨"u1,secret", []⟩ emptyClient).1.body.toList :=
  ⟨(first_login_body_is_fixed_text sampleLib "s" ⟨"u1,secret", []⟩ emptyClient "u1" "secret"
      rfl rfl).1 "$2a$10$secret" rfl rfl,
    (first_login_body_is_fixed_text sampleLib "s" ⟨"u1," ++ longPassword, []⟩ emptyClient "u1"
      longPassword rfl rfl).2.1 "bcrypt: password length exceeds 72 bytes" rfl,
    (first_login_body_is_fixed_text sampleLib "s" ⟨"u1,secret", []⟩ flakyClient "u1" "secret"
      rfl rfl).2.2.1 "$2a$10$secret" "connection reset" rfl rfl,
    (first_login_body_is_fixed_text sampleLib "s" ⟨"u1,secret", []⟩ emptyClient "u1" "secret"
      rfl rfl).2.2.2.1 (by decide),
    (first_login_body_is_fixed_text sampleLib "s" ⟨"u1," ++ longPassword, []⟩ emptyClient "u1"
      longPassword rfl rfl).2.2.2.2.1 (by decide),
    (first_login_body_is_fixed_text sampleLib "s" ⟨"u1,secret", []⟩ emptyClient "u1" "secret"
      rfl rfl).2.2.2.2.2.2 "secret" (by decide) (by decide) (by decide),
    (first_login_body_is_fixed_text sampleLib "s" ⟨"u1,secret", []⟩ emptyClient "u1" "secret"
      rfl rfl).2.2.2.2.2.2 "$2a$10$secret" (by decide) (by decide) (by decide)⟩

end GoApiServer
